import Mathlib

/-!
Verification of the `quasiquotes` C loader (`src/quasiquotes/c/_loader.c`).

The C extension module exposes a single operation, `create_callable`,
which parses a `filename` argument (positional or keyword, must be a
string), opens the named shared object with `dlopen(filename, RTLD_LAZY)`,
resolves the exported symbol `__qq_methoddef` with `dlsym`, and on success
wraps the resolved `PyMethodDef` with `PyCFunction_NewEx(def, NULL, NULL)`.
On `dlopen` or `dlsym` failure it raises `OSError` carrying `dlerror()`
text.

The embedding below models the Python value/argument surface, the OS
loader as an environment of oracle functions, and the call as a function
that also returns the list of loader events it performed (so that frame
and temporal properties - "uses RTLD_LAZY", "never calls dlclose",
"at most one open and one symbol lookup" - are statable), together with
an allocation counter giving each constructed callable a fresh identity
(as `PyCFunction_NewEx` allocates a fresh object on each call).
-/

namespace QQLoader

/-- A Python value as far as this module can observe it: either a string
(accepted by the "s" format of `PyArg_ParseTupleAndKeywords`) or some
non-string value. -/
inductive PyValue where
  | str (s : String)
  | nonStr (tag : Nat)
  deriving DecidableEq, Repr

/-- The argument shape of a Python-level call: a tuple of positional
arguments and a keyword dictionary (modelled as an association list;
Python dictionaries have no duplicate keys, which theorems assume via a
`Nodup` hypothesis where it matters). -/
structure CallArgs where
  positional : List PyValue
  keyword : List (String × PyValue)
  deriving DecidableEq, Repr

/-- The exception kinds this module can raise: `PyExc_OSError` from the
two loader failure paths, and `PyExc_TypeError` from argument parsing. -/
inductive ExcType where
  | OSError
  | TypeError
  deriving DecidableEq, Repr

/-- A raised Python exception: its type and its message string. -/
structure PyErr where
  exc : ExcType
  msg : String
  deriving DecidableEq, Repr

/-- The `PyMethodDef` record the shared object exports at
`__qq_methoddef`: name, entry-point address (modelled as a `Nat`),
calling-convention flags, and documentation string. -/
structure PyMethodDef where
  ml_name : String
  ml_meth : Nat
  ml_flags : Int
  ml_doc : String
  deriving DecidableEq, Repr

/-- The callable object built by `PyCFunction_NewEx(def, self, module)`:
a fresh object identity, the wrapped descriptor, and the (here always
absent) bound receiver and module. -/
structure PyCFunctionObj where
  objId : Nat
  methoddef : PyMethodDef
  self : Option PyValue
  moduleRef : Option PyValue
  deriving DecidableEq, Repr

/-- The mode flag passed to `dlopen`. -/
inductive DlFlag where
  | RTLD_LAZY
  | RTLD_NOW
  deriving DecidableEq, Repr

/-- An observable action against the OS dynamic loader. -/
inductive LoaderEvent where
  | dlopenEv (filename : String) (flag : DlFlag)
  | dlsymEv (handle : Nat) (symbol : String)
  | dlcloseEv (handle : Nat)
  deriving DecidableEq, Repr

/-- The OS loader, as an oracle environment: what `dlopen` returns for a
filename (`none` models a NULL handle), what `dlsym` returns for a handle
and symbol name (`none` models a NULL address), and the `dlerror`
diagnostic text available after each kind of failure. -/
structure LoaderEnv where
  dlopenRes : String → Option Nat
  dlsymRes : Nat → String → Option PyMethodDef
  dlerrorOpen : String → String
  dlerrorSym : Nat → String → String

/-- The symbol name the loader resolves, literally `"__qq_methoddef"`. -/
def qqSymbol : String := "__qq_methoddef"

/-- Conversion of one argument by the "s" format unit: only a string is
accepted, anything else raises `TypeError`. -/
def asString (v : PyValue) : Except PyErr String :=
  match v with
  | .str s => .ok s
  | .nonStr _ => .error ⟨.TypeError, "create_callable() argument 1 must be str"⟩

/-- Model of `PyArg_ParseTupleAndKeywords(args, kwargs,
"s:create_callable", keywords, &filename)` with keyword table
`filename`: one required argument named
`filename`, acceptable as the first positional argument or as the
keyword `filename`; extra positional arguments, unknown keywords,
duplicate supply, a missing argument, or a non-string value all raise
`TypeError`. -/
def parseArgs (args : CallArgs) : Except PyErr String :=
  if args.keyword.any (fun kv => kv.1 ≠ "filename") then
    .error ⟨.TypeError,
      "an invalid keyword argument for create_callable()"⟩
  else
    match args.positional, args.keyword.lookup "filename" with
    | [v], Option.none => asString v
    | [_], some _ =>
      .error ⟨.TypeError,
        "argument for create_callable() given by name and position"⟩
    | [], some v => asString v
    | [], Option.none =>
      .error ⟨.TypeError, "create_callable() missing required argument"⟩
    | _, _ =>
      .error ⟨.TypeError, "create_callable() takes at most 1 argument"⟩

/-- The outcome of one `create_callable` call: the Python-level result
(callable or raised exception), the sequence of loader events performed,
and the allocation counter after the call. -/
structure CallResult where
  result : Except PyErr PyCFunctionObj
  trace : List LoaderEvent
  nextId : Nat
  deriving Repr

/-- The operation `create_callable` from `_loader.c`: parse the
`filename` argument;
`dlopen(filename, RTLD_LAZY)`, raising `OSError(dlerror())` on NULL;
`dlsym(sohandle, "__qq_methoddef")`, raising `OSError(dlerror())` on
NULL; otherwise return `PyCFunction_NewEx(qq_methoddef, NULL, NULL)`.
`n` is the allocation counter supplying the fresh object identity. -/
def create_callable (env : LoaderEnv) (args : CallArgs) (n : Nat) :
    CallResult :=
  match parseArgs args with
  | .error e => ⟨.error e, [], n⟩
  | .ok filename =>
    match env.dlopenRes filename with
    | Option.none =>
      ⟨.error ⟨.OSError, env.dlerrorOpen filename⟩,
       [.dlopenEv filename .RTLD_LAZY], n⟩
    | some sohandle =>
      match env.dlsymRes sohandle qqSymbol with
      | Option.none =>
        ⟨.error ⟨.OSError, env.dlerrorSym sohandle qqSymbol⟩,
         [.dlopenEv filename .RTLD_LAZY, .dlsymEv sohandle qqSymbol], n⟩
      | some qq_methoddef =>
        ⟨.ok ⟨n, qq_methoddef, Option.none, Option.none⟩,
         [.dlopenEv filename .RTLD_LAZY, .dlsymEv sohandle qqSymbol],
         n + 1⟩

/-- The native entry point a callable dispatches to when invoked: the
`ml_meth` field of the wrapped descriptor. -/
def dispatchTarget (obj : PyCFunctionObj) : Nat :=
  obj.methoddef.ml_meth

/-- Whether an event is a `dlopen` call. -/
def isOpenEv : LoaderEvent → Bool
  | .dlopenEv _ _ => true
  | _ => false

/-- Whether an event is a `dlsym` call. -/
def isSymEv : LoaderEvent → Bool
  | .dlsymEv _ _ => true
  | _ => false

/-- Number of `dlopen` calls in a trace. -/
def countOpens (tr : List LoaderEvent) : Nat :=
  (tr.filter isOpenEv).length

/-- Number of `dlsym` calls in a trace. -/
def countSyms (tr : List LoaderEvent) : Nat :=
  (tr.filter isSymEv).length

/-- A well-formed descriptor used as a concrete fixture. -/
def fixtureDef : PyMethodDef :=
  ⟨"inline_c", 42, 3, ""⟩

/-- A descriptor with arbitrary-looking fields, used to show no layout
validation occurs. -/
def oddDef : PyMethodDef :=
  ⟨"", 0, -7, "x"⟩

/-- A loader environment in which `"libfoo.so"` opens to handle 7 and
that handle exports `__qq_methoddef`. -/
def envGood : LoaderEnv :=
  ⟨fun f => if f = "libfoo.so" then some 7 else Option.none,
   fun h s => if h = 7 ∧ s = qqSymbol then some fixtureDef else Option.none,
   fun _ => "cannot open shared object file: No such file or directory",
   fun _ _ => "undefined symbol: __qq_methoddef"⟩

/-- A loader environment in which `"libbar.so"` opens to handle 3 but no
symbol resolves. -/
def envNoSym : LoaderEnv :=
  ⟨fun f => if f = "libbar.so" then some 3 else Option.none,
   fun _ _ => Option.none,
   fun _ => "cannot open shared object file: No such file or directory",
   fun _ _ => "undefined symbol: __qq_methoddef"⟩

/-- A loader environment in which `"libodd.so"` opens to handle 1 and
exports the odd-looking descriptor. -/
def envOdd : LoaderEnv :=
  ⟨fun f => if f = "libodd.so" then some 1 else Option.none,
   fun h s => if h = 1 ∧ s = qqSymbol then some oddDef else Option.none,
   fun _ => "open failed",
   fun _ _ => "undefined symbol: __qq_methoddef"⟩

/-- Arguments passing `filename` as the single positional argument. -/
def argsPos (filename : String) : CallArgs :=
  ⟨[.str filename], []⟩

/-- Arguments passing `filename` by keyword. -/
def argsKw (filename : String) : CallArgs :=
  ⟨[], [("filename", .str filename)]⟩

lemma parseArgs_argsPos (filename : String) :
    parseArgs (argsPos filename) = .ok filename := rfl

/-- A keyword list whose keys are all `"filename"` and have no
duplicates is empty or a single `filename` binding. -/
lemma keyword_shape (kw : List (String × PyValue))
    (hnodup : (kw.map Prod.fst).Nodup)
    (hall : ∀ p ∈ kw, p.1 = "filename") :
    kw = [] ∨ ∃ v, kw = [("filename", v)] := by
  match kw with
  | [] => exact Or.inl rfl
  | [⟨k, v⟩] =>
    right
    refine ⟨v, ?_⟩
    have hk := hall ⟨k, v⟩ (by simp)
    simp only at hk
    simp [hk]
  | ⟨k1, v1⟩ :: ⟨k2, v2⟩ :: rest =>
    exfalso
    have h1 := hall ⟨k1, v1⟩ (by simp)
    have h2 := hall ⟨k2, v2⟩ (by simp)
    simp only at h1 h2
    rw [List.map_cons, List.map_cons, List.nodup_cons] at hnodup
    exact hnodup.1 (by simp [h1, h2])

/-- Claim C1: whenever argument parsing succeeds and the `dlopen` of the
shared object succeeds, `create_callable` performs a `dlsym` lookup of
the literal symbol `__qq_methoddef` on the obtained handle, and whenever
that lookup succeeds it returns a callable built from the resolved
descriptor with no bound receiver (`self = NULL`) and no module. -/
theorem create_callable_resolves_symbol_and_wraps
    (env : LoaderEnv) (args : CallArgs) (n : Nat) (filename : String)
    (sohandle : Nat)
    (hparse : parseArgs args = .ok filename)
    (hopen : env.dlopenRes filename = some sohandle) :
    LoaderEvent.dlsymEv sohandle qqSymbol ∈
      (create_callable env args n).trace ∧
    ∀ md, env.dlsymRes sohandle qqSymbol = some md →
      (create_callable env args n).result =
        .ok ⟨n, md, Option.none, Option.none⟩ := by
  constructor
  · cases hsym : env.dlsymRes sohandle qqSymbol <;>
      simp [create_callable, hparse, hopen, hsym]
  · intro md hmd
    simp [create_callable, hparse, hopen, hmd]

/-- Witness for C1 at a concrete environment and call. -/
theorem create_callable_resolves_symbol_and_wraps_witness :
    LoaderEvent.dlsymEv 7 qqSymbol ∈
      (create_callable envGood (argsPos "libfoo.so") 0).trace ∧
    ∀ md, envGood.dlsymRes 7 qqSymbol = some md →
      (create_callable envGood (argsPos "libfoo.so") 0).result =
        .ok ⟨0, md, Option.none, Option.none⟩ :=
  create_callable_resolves_symbol_and_wraps envGood (argsPos "libfoo.so")
    0 "libfoo.so" 7 rfl (by simp [envGood])

/-- Claim C2: when the shared object cannot be opened (`dlopen` returns
NULL), `create_callable` raises `OSError` carrying the `dlerror()`
diagnostic text and returns no callable. -/
theorem create_callable_open_failure
    (env : LoaderEnv) (args : CallArgs) (n : Nat) (filename : String)
    (hparse : parseArgs args = .ok filename)
    (hopen : env.dlopenRes filename = Option.none) :
    (create_callable env args n).result =
      .error ⟨.OSError, env.dlerrorOpen filename⟩ ∧
    ∀ obj, (create_callable env args n).result ≠ .ok obj := by
  constructor
  · simp [create_callable, hparse, hopen]
  · intro obj
    simp [create_callable, hparse, hopen]

/-- Witness for C2 at a concrete environment and call. -/
theorem create_callable_open_failure_witness :
    (create_callable envGood (argsPos "missing.so") 0).result =
      .error ⟨.OSError, envGood.dlerrorOpen "missing.so"⟩ ∧
    ∀ obj, (create_callable envGood (argsPos "missing.so") 0).result ≠
      .ok obj :=
  create_callable_open_failure envGood (argsPos "missing.so") 0
    "missing.so" rfl (by simp [envGood])

/-- Claim C3: when the shared object opens but `dlsym` fails to resolve
`__qq_methoddef`, `create_callable` raises `OSError` carrying the
`dlerror()` diagnostic text and returns no callable. -/
theorem create_callable_symbol_failure
    (env : LoaderEnv) (args : CallArgs) (n : Nat) (filename : String)
    (sohandle : Nat)
    (hparse : parseArgs args = .ok filename)
    (hopen : env.dlopenRes filename = some sohandle)
    (hsym : env.dlsymRes sohandle qqSymbol = Option.none) :
    (create_callable env args n).result =
      .error ⟨.OSError, env.dlerrorSym sohandle qqSymbol⟩ ∧
    ∀ obj, (create_callable env args n).result ≠ .ok obj := by
  constructor
  · simp [create_callable, hparse, hopen, hsym]
  · intro obj
    simp [create_callable, hparse, hopen, hsym]

/-- Witness for C3 at a concrete environment and call. -/
theorem create_callable_symbol_failure_witness :
    (create_callable envNoSym (argsPos "libbar.so") 0).result =
      .error ⟨.OSError, envNoSym.dlerrorSym 3 qqSymbol⟩ ∧
    ∀ obj, (create_callable envNoSym (argsPos "libbar.so") 0).result ≠
      .ok obj :=
  create_callable_symbol_failure envNoSym (argsPos "libbar.so") 0
    "libbar.so" 3 rfl (by simp [envNoSym]) rfl

/-- Claim C4: whenever `create_callable` reaches the load step it opens
the named shared object with the lazy-resolution flag `RTLD_LAZY`, and
every open it ever performs uses `RTLD_LAZY` (never `RTLD_NOW`). -/
theorem create_callable_lazy_open
    (env : LoaderEnv) (args : CallArgs) (n : Nat) (filename : String)
    (hparse : parseArgs args = .ok filename) :
    LoaderEvent.dlopenEv filename .RTLD_LAZY ∈
      (create_callable env args n).trace ∧
    ∀ f fl, LoaderEvent.dlopenEv f fl ∈ (create_callable env args n).trace →
      fl = .RTLD_LAZY := by
  cases hopen : env.dlopenRes filename with
  | none =>
    constructor
    · simp [create_callable, hparse, hopen]
    · intro f fl hmem
      simp [create_callable, hparse, hopen] at hmem
      exact hmem.2
  | some sohandle =>
    cases hsym : env.dlsymRes sohandle qqSymbol with
    | none =>
      constructor
      · simp [create_callable, hparse, hopen, hsym]
      · intro f fl hmem
        simp [create_callable, hparse, hopen, hsym] at hmem
        exact hmem.2
    | some md =>
      constructor
      · simp [create_callable, hparse, hopen, hsym]
      · intro f fl hmem
        simp [create_callable, hparse, hopen, hsym] at hmem
        exact hmem.2

/-- Witness for C4 at a concrete environment and call. -/
theorem create_callable_lazy_open_witness :
    LoaderEvent.dlopenEv "libfoo.so" .RTLD_LAZY ∈
      (create_callable envGood (argsPos "libfoo.so") 0).trace ∧
    ∀ f fl, LoaderEvent.dlopenEv f fl ∈
      (create_callable envGood (argsPos "libfoo.so") 0).trace →
      fl = .RTLD_LAZY :=
  create_callable_lazy_open envGood (argsPos "libfoo.so") 0 "libfoo.so" rfl

/-- Claim C6: on every execution path of `create_callable` - success,
open failure and symbol-resolution failure alike - no `dlclose` is ever
performed: the handle created by `dlopen` is never released by this
component. -/
theorem create_callable_never_unloads
    (env : LoaderEnv) (args : CallArgs) (n sohandle : Nat) :
    LoaderEvent.dlcloseEv sohandle ∉ (create_callable env args n).trace := by
  cases hp : parseArgs args with
  | error e => simp [create_callable, hp]
  | ok filename =>
    cases hopen : env.dlopenRes filename with
    | none => simp [create_callable, hp, hopen]
    | some h =>
      cases hsym : env.dlsymRes h qqSymbol <;>
        simp [create_callable, hp, hopen, hsym]

/-- Witness for C6 at a concrete environment and call. -/
theorem create_callable_never_unloads_witness :
    LoaderEvent.dlcloseEv 7 ∉
      (create_callable envGood (argsPos "libfoo.so") 0).trace :=
  create_callable_never_unloads envGood (argsPos "libfoo.so") 0 7

/-- Claim C7: calling `create_callable` twice on the same valid path
yields two distinct callable objects (fresh allocations) that wrap the
same descriptor, hence dispatch to the same native entry point with the
same (absent) bound receiver. -/
theorem create_callable_twice_distinct_same_target
    (env : LoaderEnv) (filename : String) (sohandle n : Nat)
    (md : PyMethodDef)
    (hopen : env.dlopenRes filename = some sohandle)
    (hsym : env.dlsymRes sohandle qqSymbol = some md) :
    ∃ o1 o2,
      (create_callable env (argsPos filename) n).result = .ok o1 ∧
      (create_callable env (argsPos filename)
        (create_callable env (argsPos filename) n).nextId).result =
          .ok o2 ∧
      o1 ≠ o2 ∧
      dispatchTarget o1 = dispatchTarget o2 ∧
      o1.methoddef = o2.methoddef ∧
      o1.self = o2.self := by
  refine ⟨⟨n, md, Option.none, Option.none⟩,
    ⟨n + 1, md, Option.none, Option.none⟩, ?_, ?_, ?_, rfl, rfl, rfl⟩
  · simp [create_callable, parseArgs_argsPos, hopen, hsym]
  · simp [create_callable, parseArgs_argsPos, hopen, hsym]
  · simp

/-- Witness for C7 at a concrete environment and call. -/
theorem create_callable_twice_distinct_same_target_witness :
    ∃ o1 o2,
      (create_callable envGood (argsPos "libfoo.so") 0).result = .ok o1 ∧
      (create_callable envGood (argsPos "libfoo.so")
        (create_callable envGood (argsPos "libfoo.so") 0).nextId).result =
          .ok o2 ∧
      o1 ≠ o2 ∧
      dispatchTarget o1 = dispatchTarget o2 ∧
      o1.methoddef = o2.methoddef ∧
      o1.self = o2.self :=
  create_callable_twice_distinct_same_target envGood "libfoo.so" 7 0
    fixtureDef (by simp [envGood]) (by simp [envGood, qqSymbol])

/-- Claim C8: the resolved descriptor is wrapped exactly as found, for
every descriptor whatsoever: whatever name, entry point, flags and doc
text the shared object exports at `__qq_methoddef`, the returned
callable carries that record unchanged, with no inspection or
validation. -/
theorem create_callable_no_descriptor_validation
    (env : LoaderEnv) (args : CallArgs) (n : Nat) (filename : String)
    (sohandle : Nat) (md : PyMethodDef)
    (hparse : parseArgs args = .ok filename)
    (hopen : env.dlopenRes filename = some sohandle)
    (hsym : env.dlsymRes sohandle qqSymbol = some md) :
    (create_callable env args n).result =
      .ok ⟨n, md, Option.none, Option.none⟩ := by
  simp [create_callable, hparse, hopen, hsym]

/-- Witness for C8: even a descriptor with an empty name and negative
flags is wrapped unchanged. -/
theorem create_callable_no_descriptor_validation_witness :
    (create_callable envOdd (argsPos "libodd.so") 5).result =
      .ok ⟨5, oddDef, Option.none, Option.none⟩ :=
  create_callable_no_descriptor_validation envOdd (argsPos "libodd.so") 5
    "libodd.so" 1 oddDef rfl (by simp [envOdd]) (by simp [envOdd, qqSymbol])

/-- Claim C9: every call is one linear sequence: at most one `dlopen`
attempt and at most one `dlsym` attempt occur, neither step is ever
retried, and a failed open is terminal - the trace stops at the failed
open with no symbol lookup after it. -/
theorem create_callable_linear_no_retry
    (env : LoaderEnv) (args : CallArgs) (n : Nat) :
    countOpens (create_callable env args n).trace ≤ 1 ∧
    countSyms (create_callable env args n).trace ≤ 1 ∧
    (∀ filename, parseArgs args = .ok filename →
      env.dlopenRes filename = Option.none →
      (create_callable env args n).trace =
        [.dlopenEv filename .RTLD_LAZY]) := by
  refine ⟨?_, ?_, ?_⟩
  · cases hp : parseArgs args with
    | error e => simp [create_callable, hp, countOpens]
    | ok filename =>
      cases hopen : env.dlopenRes filename with
      | none => simp [create_callable, hp, hopen, countOpens, isOpenEv]
      | some h =>
        cases hsym : env.dlsymRes h qqSymbol <;>
          simp [create_callable, hp, hopen, hsym, countOpens, isOpenEv]
  · cases hp : parseArgs args with
    | error e => simp [create_callable, hp, countSyms]
    | ok filename =>
      cases hopen : env.dlopenRes filename with
      | none => simp [create_callable, hp, hopen, countSyms, isSymEv]
      | some h =>
        cases hsym : env.dlsymRes h qqSymbol <;>
          simp [create_callable, hp, hopen, hsym, countSyms, isSymEv]
  · intro filename hp hopen
    simp [create_callable, hp, hopen]

/-- Witness for C9 at a concrete environment and call. -/
theorem create_callable_linear_no_retry_witness :
    countOpens (create_callable envGood (argsPos "libfoo.so") 0).trace ≤ 1 ∧
    countSyms (create_callable envGood (argsPos "libfoo.so") 0).trace ≤ 1 ∧
    (∀ filename, parseArgs (argsPos "libfoo.so") = .ok filename →
      envGood.dlopenRes filename = Option.none →
      (create_callable envGood (argsPos "libfoo.so") 0).trace =
        [.dlopenEv filename .RTLD_LAZY]) :=
  create_callable_linear_no_retry envGood (argsPos "libfoo.so") 0

/-- Claim C10: when argument parsing fails, `create_callable` raises
that parse error before touching the loader: no `dlopen` (indeed no
loader event at all) occurs and nothing is allocated. -/
theorem create_callable_parse_failure_no_load
    (env : LoaderEnv) (args : CallArgs) (n : Nat) (e : PyErr)
    (hparse : parseArgs args = .error e) :
    (create_callable env args n).result = .error e ∧
    (create_callable env args n).trace = [] ∧
    (create_callable env args n).nextId = n := by
  refine ⟨?_, ?_, ?_⟩ <;> simp [create_callable, hparse]

/-- Witness for C10: a call with no arguments at all fails without any
loader activity. -/
theorem create_callable_parse_failure_no_load_witness :
    (create_callable envGood ⟨[], []⟩ 0).result =
      .error ⟨.TypeError, "create_callable() missing required argument"⟩ ∧
    (create_callable envGood ⟨[], []⟩ 0).trace = [] ∧
    (create_callable envGood ⟨[], []⟩ 0).nextId = 0 :=
  create_callable_parse_failure_no_load envGood ⟨[], []⟩ 0
    ⟨.TypeError, "create_callable() missing required argument"⟩ rfl

/-- Claim C5: `create_callable` accepts exactly one parameter,
`filename`, which must be a string supplied either as the single
positional argument or as the keyword `filename`; argument parsing
succeeds in exactly those two shapes (assuming the keyword dictionary
has no duplicate keys, as Python guarantees), and every parse failure
makes the call itself fail with that error. -/
theorem create_callable_argument_surface
    (env : LoaderEnv) (n : Nat) (args : CallArgs) (s : String)
    (hnodup : (args.keyword.map Prod.fst).Nodup) :
    (parseArgs args = .ok s ↔
      (args.positional = [PyValue.str s] ∧ args.keyword = []) ∨
      (args.positional = [] ∧
        args.keyword = [("filename", PyValue.str s)])) ∧
    (∀ e, parseArgs args = .error e →
      (create_callable env args n).result = .error e) := by
  constructor
  · constructor
    · intro hok
      unfold parseArgs at hok
      by_cases hany :
          (args.keyword.any fun kv => kv.1 ≠ "filename") = true
      · rw [if_pos hany] at hok
        exact absurd hok (by simp)
      · rw [if_neg hany] at hok
        have hall : ∀ p ∈ args.keyword, p.1 = "filename" := by
          intro p hp
          by_contra hne
          exact hany (List.any_eq_true.mpr ⟨p, hp, by simpa using hne⟩)
        rcases keyword_shape args.keyword hnodup hall with hkw | ⟨v, hkw⟩ <;>
          rw [hkw] at hok
        · rcases hpos : args.positional with _ | ⟨w, _ | ⟨b, rest⟩⟩ <;>
            rw [hpos] at hok
          · simp [List.lookup] at hok
          · cases w with
            | str t =>
              simp only [List.lookup, asString, Except.ok.injEq] at hok
              subst hok
              exact Or.inl ⟨rfl, hkw⟩
            | nonStr tag => simp [List.lookup, asString] at hok
          · simp [List.lookup] at hok
        · rcases hpos : args.positional with _ | ⟨w, _ | ⟨b, rest⟩⟩ <;>
            rw [hpos] at hok
          · cases v with
            | str t =>
              simp only [List.lookup] at hok
              simp only [beq_self_eq_true, if_true, asString,
                Except.ok.injEq] at hok
              subst hok
              exact Or.inr ⟨rfl, hkw⟩
            | nonStr tag => simp [List.lookup, asString] at hok
          · simp [List.lookup] at hok
          · simp [List.lookup] at hok
    · rintro (⟨hp, hk⟩ | ⟨hp, hk⟩)
      · have hargs : args = ⟨[PyValue.str s], []⟩ := by
          cases args
          simp_all
        rw [hargs]
        rfl
      · have hargs : args = ⟨[], [("filename", PyValue.str s)]⟩ := by
          cases args
          simp_all
        rw [hargs]
        rfl
  · intro e he
    simp [create_callable, he]

/-- Witness for C5 at a concrete call passing the filename by keyword. -/
theorem create_callable_argument_surface_witness :
    (parseArgs (argsKw "libfoo.so") = .ok "libfoo.so" ↔
      ((argsKw "libfoo.so").positional = [PyValue.str "libfoo.so"] ∧
        (argsKw "libfoo.so").keyword = []) ∨
      ((argsKw "libfoo.so").positional = [] ∧
        (argsKw "libfoo.so").keyword =
          [("filename", PyValue.str "libfoo.so")])) ∧
    (∀ e, parseArgs (argsKw "libfoo.so") = .error e →
      (create_callable envGood (argsKw "libfoo.so") 0).result = .error e) :=
  create_callable_argument_surface envGood 0 (argsKw "libfoo.so")
    "libfoo.so" (by simp [argsKw])

end QQLoader
